import Mathlib

/-!
Verification of the solar-system visualization repository.

The repository holds three near-duplicate variants of the same Three.js
application:

* `src/script.js` — the main variant (class `SolarSystem`): scene build,
  per-tick angle accumulation, orbit toggling, click picking, resize handling.
* `src/unnamed/part_000` — an HTML page embedding an earlier copy of the same
  class, with a top-level resize listener.
* `src/unnamed/part_001` — a module variant with a lil-gui panel
  (global time scale, show-orbits, pause), a camera tween, and hover tooltips.

This file shallowly embeds the parts of those programs that the verified
properties are about.  JS numbers are modelled as `ℚ` where the source only
does field arithmetic, and as `ℝ` where the source applies `Math.cos` /
`Math.sin`.  Scene-graph object handles are modelled by the inductive `Obj`;
the geometric ray cast performed by the graphics library is modelled by an
explicit list of (object, distance) intersection records handed to the
event handlers, and `THREE.Raycaster.intersectObjects` is modelled as
filtering that list to the requested target objects and sorting it by
distance, nearest first, which is the library's documented behaviour.
-/

/-- Handles of the renderable objects placed in the scene by either variant:
the sun mesh, the eight planet meshes, the eight orbit-path visuals, the
star field, and the ambient light.  Saturn's ring mesh is a child of the
Saturn planet mesh, not a scene-level object, and the sun point light is a
child of the sun mesh. -/
inductive Obj where
  | sun
  | planetMesh (i : Fin 8)
  | orbit (i : Fin 8)
  | starField
  | ambientLight
deriving DecidableEq

/-- A record of the planet configuration table at the top of
`createCelestialBodies` in `src/script.js`: name, color, size (sphere
radius), and distance from the sun.  The table is a literal; it is never
mutated. -/
structure PlanetConfig where
  name : String
  color : Nat
  size : ℚ
  distance : ℚ
deriving DecidableEq

/-- The `planets` configuration table of `src/script.js`
(`createCelestialBodies`, lines 65-74). -/
def planetConfigs : List PlanetConfig :=
  [ ⟨"Mercury", 0xA0522D, 2/5, 10⟩
  , ⟨"Venus", 0xDEB887, 19/20, 15⟩
  , ⟨"Earth", 0x4169E1, 1, 20⟩
  , ⟨"Mars", 0xFF4500, 1/2, 25⟩
  , ⟨"Jupiter", 0xDAA520, 5/2, 35⟩
  , ⟨"Saturn", 0xF4A460, 2, 45⟩
  , ⟨"Uranus", 0x87CEEB, 17/10, 55⟩
  , ⟨"Neptune", 0x0000CD, 8/5, 65⟩ ]

/-- The configuration record of the `i`-th planet of `src/script.js`. -/
def configAt (i : Fin 8) : PlanetConfig :=
  planetConfigs.getD i.val ⟨"", 0, 0, 0⟩

/-- The effective per-tick angular speed of a `src/script.js` planet at
simulation speed 1: the tick does `planet.angle += 0.005 * (10 /
planet.distance) * (this.simulationSpeed || 1)` (line 245), so the
configured angular speed of a body at distance `d` is `0.005 * (10 / d)`. -/
def orbitSpeed (d : ℚ) : ℚ :=
  1/200 * (10 / d)

/-- The stored orbital angle of a `src/script.js` planet at distance `d`
after `n` ticks, starting from angle `a0`, with the speed slider at `s`:
each tick executes `planet.angle += 0.005 * (10 / planet.distance) * s`
(line 245 of `animate`).  No reduction modulo 2π is applied anywhere. -/
def scriptAngleAfter (a0 d s : ℚ) : ℕ → ℚ
  | 0 => a0
  | n + 1 => scriptAngleAfter a0 d s n + 1/200 * (10 / d) * s

lemma scriptAngleAfter_eq (a0 d s : ℚ) (n : ℕ) :
    scriptAngleAfter a0 d s n = a0 + n * (orbitSpeed d * s) := by
  induction n with
  | zero => simp [scriptAngleAfter]
  | succ n ih =>
      rw [scriptAngleAfter, ih, orbitSpeed]
      push_cast
      ring

/-- The per-planet runtime record of `src/script.js`: the object returned
by the `planets.map` in `createCelestialBodies` (line 118) together with
the mutable visual state of its mesh and orbit visuals.  `angle` is the
stored orbital angle (initialised to `Math.random() * 2π`, here a
parameter), `posX`/`posY`/`posZ` and `rotY` are the mesh transform (a
fresh `THREE.Mesh` starts at the origin with zero rotation), and
`meshVisible`/`orbitVisible` are the `visible` flags of the two visuals
(`THREE.Object3D` objects start visible). -/
structure SPlanet where
  config : PlanetConfig
  mesh : Obj
  orbit : Obj
  meshVisible : Bool
  orbitVisible : Bool
  orbitInner : ℚ
  orbitOuter : ℚ
  angle : ℝ
  posX : ℝ
  posY : ℝ
  posZ : ℝ
  rotY : ℝ

/-- The runtime record built for the `i`-th planet of `src/script.js`:
mesh and orbit handles, orbit ring geometry `RingGeometry(distance - 0.1,
distance, 64)` (line 106), both visuals initially visible, mesh at the
origin, and the given random starting angle. -/
def mkPlanet (i : Fin 8) (a : ℝ) : SPlanet :=
  { config := configAt i
  , mesh := Obj.planetMesh i
  , orbit := Obj.orbit i
  , meshVisible := true
  , orbitVisible := true
  , orbitInner := (configAt i).distance - 1/10
  , orbitOuter := (configAt i).distance
  , angle := a
  , posX := 0
  , posY := 0
  , posZ := 0
  , rotY := 0 }

/-- The `this.planets` array built by `createCelestialBodies` in
`src/script.js` (lines 83-119): one runtime record per configuration row,
in table order, with the random initial angles passed in as `angles`. -/
def buildPlanets (angles : Fin 8 → ℝ) : List SPlanet :=
  [ mkPlanet 0 (angles 0), mkPlanet 1 (angles 1), mkPlanet 2 (angles 2)
  , mkPlanet 3 (angles 3), mkPlanet 4 (angles 4), mkPlanet 5 (angles 5)
  , mkPlanet 6 (angles 6), mkPlanet 7 (angles 7) ]

/-- The list of objects attached to the scene by `initScene` and
`createCelestialBodies` of `src/script.js`, in insertion order: the star
field, the sun, the eight orbit visuals (added inside the `planets.map`
loop), the eight planet meshes (added by the `forEach` after the loop),
and the ambient light.  Saturn's ring mesh is a child of the Saturn mesh
and the sun point light is a child of the sun, so neither is a direct
scene member. -/
def sceneObjects : List Obj :=
  [Obj.starField, Obj.sun]
    ++ (List.finRange 8).map Obj.orbit
    ++ (List.finRange 8).map Obj.planetMesh
    ++ [Obj.ambientLight]

/-- Tests whether a scene object is one of the planet body visuals. -/
def isBodyVisual : Obj → Bool
  | Obj.planetMesh _ => true
  | _ => false

/-- Tests whether a scene object is one of the orbit-path visuals. -/
def isOrbitVisual : Obj → Bool
  | Obj.orbit _ => true
  | _ => false

/-- Tests whether a scene object is the sun visual. -/
def isSunVisual : Obj → Bool
  | Obj.sun => true
  | _ => false

/-- Orders ray intersection records by their distance component. -/
def distRel (a b : Obj × ℚ) : Prop :=
  a.2 ≤ b.2

instance : DecidableRel distRel :=
  fun a b => inferInstanceAs (Decidable (a.2 ≤ b.2))

instance : IsTotal (Obj × ℚ) distRel :=
  ⟨fun a b => le_total a.2 b.2⟩

instance : IsTrans (Obj × ℚ) distRel :=
  ⟨fun _ _ _ hab hbc => le_trans hab hbc⟩

/-- Models `THREE.Raycaster.intersectObjects(targets)`: of all the
(object, distance) intersections `ray` of the cast ray with the scene,
keep those whose object is among `targets` and return them sorted by
distance, closest first — the library's documented result order.  The
geometric intersection test itself is not re-derived: `ray` is the
oracle input standing for it. -/
def intersectObjects (targets : List Obj) (ray : List (Obj × ℚ)) : List (Obj × ℚ) :=
  List.insertionSort distRel (ray.filter (fun x => decide (x.1 ∈ targets)))

/-- The info-panel portion of the DOM state driven by `src/script.js`:
whether `#infoPanel` has the `active` class and the four text fields
written by `showPlanetInfo`. -/
structure UIState where
  panelActive : Bool
  panelName : String
  panelRadius : ℚ
  orbitalPeriod : ℤ
  sunDistance : ℚ

/-- Models `showPlanetInfo` of `src/script.js` (lines 223-232): fills the
four text fields from the planet record (`size * 12742` km, `round
(distance * 10)` Earth days, `distance * 149.6` million km) and adds the
`active` class to the panel. -/
def showPlanetInfoS (p : SPlanet) (_ui : UIState) : UIState :=
  { panelActive := true
  , panelName := p.config.name
  , panelRadius := p.config.size * 12742
  , orbitalPeriod := round (p.config.distance * (10 : ℚ))
  , sunDistance := p.config.distance * (748/5) }

/-- Models `handlePlanetClick` of `src/script.js` (lines 199-217): cast
the pick ray against `this.planets.map(p => p.mesh)` (planet meshes only);
if there is at least one intersection, look up the planet owning the
closest intersected mesh and show its info; otherwise the handler does
nothing — there is no else branch, so the panel state is left as it is. -/
def handlePlanetClickS (planetList : List SPlanet) (ray : List (Obj × ℚ))
    (ui : UIState) : UIState :=
  match intersectObjects (planetList.map (fun p => p.mesh)) ray with
  | [] => ui
  | h :: _ =>
      match planetList.find? (fun p => decide (p.mesh = h.1)) with
      | some p => showPlanetInfoS p ui
      | none => ui

/-- A UI state in which the info panel is currently shown (as after a
successful earlier pick of Earth); used as the concrete pre-state of
closed click-handler evaluations. -/
def uiShown : UIState :=
  { panelActive := true
  , panelName := "Earth"
  , panelRadius := 12742
  , orbitalPeriod := 200
  , sunDistance := 2992 }

lemma mem_intersectObjects {targets : List Obj} {ray : List (Obj × ℚ)}
    {x : Obj × ℚ} (hx : x ∈ intersectObjects targets ray) :
    x ∈ ray ∧ x.1 ∈ targets := by
  unfold intersectObjects at hx
  rw [List.mem_insertionSort] at hx
  rw [List.mem_filter] at hx
  exact ⟨hx.1, of_decide_eq_true hx.2⟩

lemma intersectObjects_head_min {targets : List Obj} {ray : List (Obj × ℚ)}
    {h : Obj × ℚ} {t : List (Obj × ℚ)}
    (hEq : intersectObjects targets ray = h :: t) :
    ∀ x ∈ ray, x.1 ∈ targets → h.2 ≤ x.2 := by
  intro x hx hxt
  have hxf : x ∈ ray.filter (fun y => decide (y.1 ∈ targets)) :=
    List.mem_filter.mpr ⟨hx, decide_eq_true hxt⟩
  have hx' : x ∈ intersectObjects targets ray := by
    unfold intersectObjects
    rw [List.mem_insertionSort]
    exact hxf
  rw [hEq] at hx'
  rcases List.mem_cons.mp hx' with hxh | hxm
  · rw [hxh]
  · have hs : List.Sorted distRel (h :: t) := by
      rw [← hEq]
      exact List.sorted_insertionSort distRel _
    exact List.rel_of_sorted_cons hs x hxm

lemma intersectObjects_sunOnly {targets : List Obj} {ray : List (Obj × ℚ)}
    (hsun : Obj.sun ∉ targets) (hray : ∀ h ∈ ray, h.1 = Obj.sun) :
    intersectObjects targets ray = [] := by
  unfold intersectObjects
  have hf : ray.filter (fun x => decide (x.1 ∈ targets)) = [] := by
    rw [List.filter_eq_nil_iff]
    intro a ha
    rw [decide_eq_true_eq]
    rw [hray a ha]
    exact hsun
  rw [hf]
  rfl

lemma find_buildPlanets (angles : Fin 8 → ℝ) (i : Fin 8) :
    (buildPlanets angles).find? (fun p => decide (p.mesh = Obj.planetMesh i))
      = some (mkPlanet i (angles i)) := by
  fin_cases i <;> rfl

lemma mkPlanet_mem_buildPlanets (angles : Fin 8 → ℝ) (i : Fin 8) :
    mkPlanet i (angles i) ∈ buildPlanets angles := by
  fin_cases i <;> simp [buildPlanets]

/-- Models the per-planet body of the `animate` loop of `src/script.js`
(lines 243-251): advance the stored angle by `0.005 * (10 / distance) *
speed`, place the mesh at `(cos angle * distance, ·, sin angle *
distance)` (the y coordinate is untouched), and advance the axial
rotation by the fixed increment `0.02`. -/
noncomputable def animatePlanetS (speed : ℝ) (p : SPlanet) : SPlanet :=
  let a := p.angle + 1/200 * (10 / (p.config.distance : ℝ)) * speed
  { p with
      angle := a
    , posX := Real.cos a * (p.config.distance : ℝ)
    , posZ := Real.sin a * (p.config.distance : ℝ)
    , rotY := p.rotY + 1/50 }

/-- Flips the `visible` flag of a planet's orbit visual, as one iteration
of the `toggleOrbits` click listener of `src/script.js` (lines 171-175)
does. -/
def flipOrbit (p : SPlanet) : SPlanet :=
  { p with orbitVisible := !p.orbitVisible }

/-- Overwrites the orbit-visibility flag with a fixed value, masking it
out; two planet records agree on every other field iff their masked forms
are equal. -/
def maskOrbitVisible (p : SPlanet) : SPlanet :=
  { p with orbitVisible := true }

/-- The mutable state of the `SolarSystem` instance of `src/script.js`
together with the DOM/renderer state it drives: the planet records, the
auto-rotate flag of the controls, the speed slider value
(`this.simulationSpeed` is undefined until the slider fires, hence an
`Option`), the info panel, the camera aspect ratio, the renderer output
buffer size, and counters for the `controls.update()` and
`renderer.render` calls issued by the loop. -/
structure ScriptState where
  planets : List SPlanet
  sunVisible : Bool
  autoRotate : Bool
  simulationSpeed : Option ℚ
  ui : UIState
  aspect : ℚ
  rendererW : ℚ
  rendererH : ℚ
  controlsUpdates : ℕ
  renders : ℕ

/-- The speed factor used by the tick: `this.simulationSpeed || 1`
(line 245) — the slider value once one `input` event has fired, else 1. -/
def effSpeed (s : ScriptState) : ℚ :=
  s.simulationSpeed.getD 1

/-- The events `src/script.js` reacts to: an animation-frame tick, a click
(carrying the ray-intersection oracle for that click), the two toolbar
buttons, a slider input, the info-panel close button, and a window
resize. -/
inductive SEvent where
  | tick
  | clickRay (ray : List (Obj × ℚ))
  | toggleOrbitsClick
  | autoRotateClick
  | speedInput (v : ℚ)
  | closePanelClick
  | resize (w h : ℚ)

/-- One event-handler invocation of `src/script.js`.  All handlers run to
completion on the single JS thread: `tick` is the body of `animate`
(update every planet, then `controls.update()`, then render); the click
event runs `handlePlanetClick`; `toggleOrbits` flips every orbit visual's
visibility; `autoRotate` toggles the controls flag; the slider stores its
value; the close button removes the panel's `active` class; `resize` is
`handleResize` (lines 262-271), which sets the camera aspect to `w / h`
and the renderer buffer to `(w, h)` synchronously inside the handler. -/
noncomputable def stepS : SEvent → ScriptState → ScriptState
  | SEvent.tick, s =>
      { s with
          planets := s.planets.map (animatePlanetS ((effSpeed s : ℚ) : ℝ))
        , controlsUpdates := s.controlsUpdates + 1
        , renders := s.renders + 1 }
  | SEvent.clickRay ray, s =>
      { s with ui := handlePlanetClickS s.planets ray s.ui }
  | SEvent.toggleOrbitsClick, s =>
      { s with planets := s.planets.map flipOrbit }
  | SEvent.autoRotateClick, s =>
      { s with autoRotate := !s.autoRotate }
  | SEvent.speedInput v, s =>
      { s with simulationSpeed := some v }
  | SEvent.closePanelClick, s =>
      { s with ui := { s.ui with panelActive := false } }
  | SEvent.resize w h, s =>
      { s with aspect := w / h, rendererW := w, rendererH := h }

/-- Runs a sequence of events from a state, first event first. -/
noncomputable def runS (evs : List SEvent) (s : ScriptState) : ScriptState :=
  evs.foldl (fun s e => stepS e s) s

/-- The state of `src/script.js` right after the constructor finished:
planets freshly built with the given random angles, auto-rotate on,
slider value not yet set, panel hidden, camera aspect and renderer buffer
at the initial window size `w × h`. -/
def initScriptState (angles : Fin 8 → ℝ) (w h : ℚ) : ScriptState :=
  { planets := buildPlanets angles
  , sunVisible := true
  , autoRotate := true
  , simulationSpeed := none
  , ui := { panelActive := false, panelName := "...", panelRadius := 0
          , orbitalPeriod := 0, sunDistance := 0 }
  , aspect := w / h
  , rendererW := w
  , rendererH := h
  , controlsUpdates := 0
  , renders := 0 }

/-- Presence of the two DOM elements checked by `setupUI` of
`src/script.js` (lines 154-161): `#infoPanel` and `#closeInfoPanel`. -/
structure DOMDoc where
  infoPanel : Bool
  closeInfoPanel : Bool

/-- What the `SolarSystem` constructor (lines 12-20) actually did: which
phases ran and whether `setupUI` reported the missing-element error on
the console. -/
structure InitResult where
  sceneBuilt : Bool
  bodiesCreated : Bool
  controlsSetup : Bool
  errorReported : Bool
  uiListenersWired : Bool
  clickListenerWired : Bool
  animateStarted : Bool
  resizeListenerWired : Bool

/-- Models `setupUI` (lines 152-192): if `#infoPanel` or
`#closeInfoPanel` is missing, it logs via `console.error` and returns
early, wiring no listeners; otherwise it wires the button, slider, click
and close listeners.  Returns (errorReported, uiListenersWired,
clickListenerWired). -/
def setupUI (dom : DOMDoc) : Bool × Bool × Bool :=
  if dom.infoPanel && dom.closeInfoPanel then (false, true, true)
  else (true, false, false)

/-- Models the `SolarSystem` constructor of `src/script.js` (lines
12-20): it unconditionally runs `initScene()`, `createCelestialBodies()`,
`setupControls()`, then `setupUI()`, then `this.animate()` and registers
the resize handler — the early return inside `setupUI` aborts only the
UI wiring, not the constructor, so the scene is built and the render
loop starts even when the checked elements are missing. -/
def solarSystemConstructor (dom : DOMDoc) : InitResult :=
  let u := setupUI dom
  { sceneBuilt := true
  , bodiesCreated := true
  , controlsSetup := true
  , errorReported := u.1
  , uiListenersWired := u.2.1
  , clickListenerWired := u.2.2
  , animateStarted := true
  , resizeListenerWired := true }

/-- A document in which the `#infoPanel` anchor element is missing. -/
def missingDom : DOMDoc :=
  { infoPanel := false, closeInfoPanel := true }

/-- The names bound in the global scope of the inline script of
`src/unnamed/part_000`: only the class declaration `SolarSystem`.  The
`camera` and `renderer` objects exist solely as instance properties of
the `SolarSystem` object created in the `load` listener (which is itself
not bound to any name). -/
def part000GlobalBindings : List String :=
  ["SolarSystem"]

/-- Models the top-level resize listener of `src/unnamed/part_000`
(lines 195-199): it evaluates `camera.aspect = innerWidth / innerHeight`
and `renderer.setSize(...)` against the global scope.  If `camera` and
`renderer` resolve, it returns the new aspect and buffer size; if either
name is unbound the handler throws a `ReferenceError` (modelled as
`none`) and performs no update. -/
def part000ResizeListener (env : List String) (w h : ℚ) : Option (ℚ × ℚ × ℚ) :=
  if "camera" ∈ env then
    if "renderer" ∈ env then some (w / h, w, h) else none
  else none

/-- A row of the `planetData` table of `src/unnamed/part_001`
(lines 80-89). -/
structure P1Config where
  radius : ℚ
  color : Nat
  distance : ℚ
  orbitSpeed : ℚ
  rotationSpeed : ℚ
  name : String
  timeScale : ℚ
deriving DecidableEq

/-- The `planetData` table of `src/unnamed/part_001`. -/
def p1Configs : List P1Config :=
  [ ⟨4/5, 0xaaaaaa, 15, 1/50, 1/200, "Mercury", 1⟩
  , ⟨6/5, 0xffa500, 25, 3/200, 1/500, "Venus", 1⟩
  , ⟨13/10, 0x0000ff, 35, 1/100, 1/50, "Earth", 1⟩
  , ⟨9/10, 0xff0000, 45, 1/125, 9/500, "Mars", 1⟩
  , ⟨3, 0xff8c00, 70, 1/250, 1/25, "Jupiter", 1⟩
  , ⟨5/2, 0xc2b280, 100, 1/500, 7/200, "Saturn", 1⟩
  , ⟨9/5, 0xadd8e6, 120, 3/2000, 1/40, "Uranus", 1⟩
  , ⟨17/10, 0x00008b, 140, 1/1000, 11/500, "Neptune", 1⟩ ]

/-- The configuration row of the `i`-th planet of `src/unnamed/part_001`. -/
def p1ConfigAt (i : Fin 8) : P1Config :=
  p1Configs.getD i.val ⟨0, 0, 0, 0, 0, "", 0⟩

/-- The per-planet record returned by `createPlanet` of
`src/unnamed/part_001` (lines 52-75), plus the mutable mesh transform:
`createPlanet(radius, color, x, 0, 0, orbitRadius, orbitSpeed,
rotationSpeed, name, timeScale)` is called with `x = orbitRadius =
distance`, so the mesh starts at `(distance, 0, 0)`; the orbit line
visual starts visible.  This variant stores no orbital angle: the angle
is recomputed from the wall clock on every unpaused tick. -/
structure P1Planet where
  mesh : Obj
  name : String
  radius : ℚ
  orbitRadius : ℚ
  orbitSpeed : ℚ
  rotationSpeed : ℚ
  timeScale : ℚ
  orbitVisible : Bool
  meshVisible : Bool
  posX : ℝ
  posY : ℝ
  posZ : ℝ
  rotY : ℝ

/-- The planet record built from the `i`-th `planetData` row of
`src/unnamed/part_001` (lines 91-95). -/
def p1InitPlanet (i : Fin 8) : P1Planet :=
  { mesh := Obj.planetMesh i
  , name := (p1ConfigAt i).name
  , radius := (p1ConfigAt i).radius
  , orbitRadius := (p1ConfigAt i).distance
  , orbitSpeed := (p1ConfigAt i).orbitSpeed
  , rotationSpeed := (p1ConfigAt i).rotationSpeed
  , timeScale := (p1ConfigAt i).timeScale
  , orbitVisible := true
  , meshVisible := true
  , posX := ((p1ConfigAt i).distance : ℝ)
  , posY := 0
  , posZ := 0
  , rotY := 0 }

/-- The `planets` array of `src/unnamed/part_001`. -/
def p1InitPlanets : List P1Planet :=
  [ p1InitPlanet 0, p1InitPlanet 1, p1InitPlanet 2, p1InitPlanet 3
  , p1InitPlanet 4, p1InitPlanet 5, p1InitPlanet 6, p1InitPlanet 7 ]

/-- The lil-gui `params` object of `src/unnamed/part_001` (lines
98-102). -/
structure P1Params where
  timeScale : ℚ
  showOrbits : Bool
  pause : Bool

/-- The OrbitControls camera state of `src/unnamed/part_001` that the
claims touch: position, look-at target, the damped input velocities, and
whether direct user control is enabled (disabled while a focus tween is
in flight). -/
structure P1Camera where
  posX : ℝ
  posY : ℝ
  posZ : ℝ
  targetX : ℝ
  targetY : ℝ
  targetZ : ℝ
  velAz : ℝ
  velPol : ℝ
  enabled : Bool

/-- An in-flight camera tween of `src/unnamed/part_001`: whether one is
active, how many update steps remain of its fixed duration, and its
destination camera position. -/
structure P1Tween where
  active : Bool
  remaining : ℕ
  toX : ℝ
  toY : ℝ
  toZ : ℝ

/-- The mutable state of `src/unnamed/part_001`: the planet records, the
sun's axial rotation, the visibility of the sun's own orbit line
(`createPlanet` is also called for the sun at line 77 with
`orbitRadius = 0`, and unconditionally creates an orbit line visual and
adds it to the scene at line 63, so the scene holds nine orbit-path
visuals; `sunOrbitVisible` models `sun.orbit.visible`), the controls
camera, any in-flight tween, the hover-tooltip state (`INTERSECTED`,
tooltip text and visibility), the gui `params`, and counters for the
scene and label-overlay redraws issued by the loop. -/
structure P1State where
  planets : List P1Planet
  sunRotY : ℝ
  sunOrbitVisible : Bool
  camera : P1Camera
  tween : P1Tween
  tooltipShown : Bool
  tooltipText : String
  intersected : Option Obj
  params : P1Params
  renders : ℕ
  labelRenders : ℕ

/-- Modelled from the spec: the effect of the external `TWEEN.update()`
call (the tween library is a CDN dependency, not part of `src/`) — an
in-flight camera tween advances one interpolation step toward its
destination each tick, and on its final step it snaps the camera to the
destination, re-enables the controls, and deactivates itself; with no
active tween the call is a no-op.  The exact easing curve is irrelevant
to the verified properties and is modelled as a proportional step. -/
noncomputable def p1TweenUpdate (s : P1State) : P1State :=
  if s.tween.active then
    match s.tween.remaining with
    | 0 =>
        { s with
            tween := { s.tween with active := false }
          , camera := { s.camera with
                          enabled := true
                        , posX := s.tween.toX
                        , posY := s.tween.toY
                        , posZ := s.tween.toZ } }
    | n + 1 =>
        { s with
            tween := { s.tween with remaining := n }
          , camera := { s.camera with
                          posX := s.camera.posX
                            + (s.tween.toX - s.camera.posX) / (n + 1)
                        , posY := s.camera.posY
                            + (s.tween.toY - s.camera.posY) / (n + 1)
                        , posZ := s.camera.posZ
                            + (s.tween.toZ - s.camera.posZ) / (n + 1) } }
  else s

/-- Modelled from the spec: the effect of the external
`controls.update()` call (OrbitControls is a library addon, not part of
`src/`) — with `enableDamping` on and `dampingFactor = 0.1`, the pending
input velocities decay by the fixed per-frame damping fraction. -/
noncomputable def p1ControlsUpdate (c : P1Camera) : P1Camera :=
  { c with velAz := c.velAz * (9/10), velPol := c.velPol * (9/10) }

/-- The display name carried by a mesh of `src/unnamed/part_001`
(`planet.name = name` in `createPlanet`). -/
def p1MeshName : Obj → String
  | Obj.planetMesh i => (p1ConfigAt i).name
  | Obj.sun => "Sun"
  | _ => ""

/-- The sphere-geometry radius of a mesh of `src/unnamed/part_001`
(`geometry.parameters.radius`). -/
def p1MeshRadius : Obj → ℚ
  | Obj.planetMesh i => (p1ConfigAt i).radius
  | Obj.sun => 5
  | _ => 0

/-- Models the hover block of `animate` in `src/unnamed/part_001`
(lines 193-204): re-cast the pointer ray against the planet meshes; on a
hit that differs from the current `INTERSECTED`, record it and show its
tooltip; on the same hit leave everything; on no hit hide the tooltip
and clear `INTERSECTED`. -/
def p1HoverUpdate (ray : List (Obj × ℚ)) (s : P1State) : P1State :=
  match intersectObjects (s.planets.map (fun p => p.mesh)) ray with
  | [] => { s with tooltipShown := false, intersected := none }
  | h :: _ =>
      if s.intersected = some h.1 then s
      else
        { s with
            intersected := some h.1
          , tooltipText := p1MeshName h.1
          , tooltipShown := true }

/-- Models the per-planet body of the unpaused branch of `animate` in
`src/unnamed/part_001` (lines 184-189): the orbital angle is recomputed
from the wall clock as `time * orbitSpeed * params.timeScale *
planet.timeScale`, the mesh is placed on the orbit circle, and the axial
rotation advances by `rotationSpeed`. -/
noncomputable def p1UpdatePlanet (time : ℝ) (globalScale : ℚ) (p : P1Planet) : P1Planet :=
  let angle : ℝ := time * (p.orbitSpeed : ℝ) * (globalScale : ℝ) * (p.timeScale : ℝ)
  { p with
      posX := Real.cos angle * (p.orbitRadius : ℝ)
    , posZ := Real.sin angle * (p.orbitRadius : ℝ)
    , rotY := p.rotY + (p.rotationSpeed : ℝ) }

/-- The sun's fixed axial rotation increment in `src/unnamed/part_001`
(`sun.rotationSpeed = 0.01`, applied on line 190). -/
noncomputable def p1SunRotationSpeed : ℝ :=
  1/100

/-- Models one tick of `animate` in `src/unnamed/part_001` (lines
178-209): always run `TWEEN.update()`; if not paused, update every
planet from the wall clock and advance the sun's rotation; always re-run
the hover pick, run `controls.update()`, and issue one scene render and
one label-overlay render.  `time` is the wall-clock reading
`performance.now() * 0.001` of this tick and `ray` the pointer-ray
intersection oracle. -/
noncomputable def p1Animate (time : ℝ) (ray : List (Obj × ℚ)) (s : P1State) : P1State :=
  let s1 := p1TweenUpdate s
  let s2 :=
    if s1.params.pause then s1
    else
      { s1 with
          planets := s1.planets.map (p1UpdatePlanet time s1.params.timeScale)
        , sunRotY := s1.sunRotY + p1SunRotationSpeed }
  let s3 := p1HoverUpdate ray s2
  let s4 := { s3 with camera := p1ControlsUpdate s3.camera }
  { s4 with renders := s4.renders + 1, labelRenders := s4.labelRenders + 1 }

/-- The always-executed portion of a `src/unnamed/part_001` tick, with
the planet/sun kinematics omitted: tween step, hover pick, controls
damping, and the two redraws.  A paused tick coincides with exactly this
composition. -/
noncomputable def p1AnimatePausedPath (ray : List (Obj × ℚ)) (s : P1State) : P1State :=
  let s3 := p1HoverUpdate ray (p1TweenUpdate s)
  { s3 with
      camera := p1ControlsUpdate s3.camera
    , renders := s3.renders + 1
    , labelRenders := s3.labelRenders + 1 }

/-- Models `onMouseClick` of `src/unnamed/part_001` (lines 132-145):
cast the pick ray against the planet meshes; on a hit, start the focus
tween on the closest hit (`focusOnPlanet`, lines 147-162: disable the
controls, re-target them at the planet, and tween the camera to an
offset position scaled by the planet's radius) and fill and show the
info panel; on no hit, hide the info panel. -/
noncomputable def p1FocusOnPlanet (o : Obj) (s : P1State) : P1State :=
  match s.planets.find? (fun p => decide (p.mesh = o)) with
  | some p =>
      { s with
          camera := { s.camera with
                        enabled := false
                      , targetX := p.posX
                      , targetY := p.posY
                      , targetZ := p.posZ }
        , tween := { active := true
                   , remaining := 60
                   , toX := p.posX + (p.radius : ℝ) * (5/2)
                   , toY := p.posY + (p.radius : ℝ) * (3/2)
                   , toZ := p.posZ + (p.radius : ℝ) * (5/2) } }
  | none => s

/-- The info-panel state of `src/unnamed/part_001`: whether
`#infoPanel` is displayed and the name and radius it shows. -/
structure P1UI where
  infoPanelShown : Bool
  infoPanelName : String
  infoPanelRadius : ℚ

/-- Models `onMouseClick` of `src/unnamed/part_001` (lines 132-145). -/
noncomputable def p1OnMouseClick (ray : List (Obj × ℚ)) (s : P1State) (ui : P1UI) :
    P1State × P1UI :=
  match intersectObjects (s.planets.map (fun p => p.mesh)) ray with
  | [] => (s, { ui with infoPanelShown := false })
  | h :: _ =>
      ( p1FocusOnPlanet h.1 s
      , { infoPanelShown := true
        , infoPanelName := p1MeshName h.1
        , infoPanelRadius := p1MeshRadius h.1 } )

/-- The state of `src/unnamed/part_001` right after the module body ran:
planets built from `planetData`, camera at `(0, 50, 150)` targeting the
origin, no tween, no hover, gui params at their defaults
(`timeScale = 1`, `showOrbits = true`, `pause = false`). -/
def p1InitState : P1State :=
  { planets := p1InitPlanets
  , sunRotY := 0
  , sunOrbitVisible := true
  , camera := { posX := 0, posY := 50, posZ := 150
              , targetX := 0, targetY := 0, targetZ := 0
              , velAz := 0, velPol := 0, enabled := true }
  , tween := { active := false, remaining := 0, toX := 0, toY := 0, toZ := 0 }
  , tooltipShown := false
  , tooltipText := ""
  , intersected := none
  , params := { timeScale := 1, showOrbits := true, pause := false }
  , renders := 0
  , labelRenders := 0 }

/-- The initial state of `src/unnamed/part_001` with the gui pause
checkbox ticked. -/
def p1PausedState : P1State :=
  { p1InitState with params := { timeScale := 1, showOrbits := true, pause := true } }

/-- A `src/unnamed/part_001` info-panel state currently showing Earth. -/
def p1UIShown : P1UI :=
  { infoPanelShown := true, infoPanelName := "Earth", infoPanelRadius := 13/10 }

lemma p1OnMouseClick_of_miss {ray : List (Obj × ℚ)} {s : P1State} {pui : P1UI}
    (hEq : intersectObjects (s.planets.map (fun p => p.mesh)) ray = []) :
    p1OnMouseClick ray s pui = (s, { pui with infoPanelShown := false }) := by
  unfold p1OnMouseClick
  rw [hEq]

lemma p1OnMouseClick_of_hit {ray : List (Obj × ℚ)} {s : P1State} {pui : P1UI}
    {h : Obj × ℚ} {t : List (Obj × ℚ)}
    (hEq : intersectObjects (s.planets.map (fun p => p.mesh)) ray = h :: t) :
    p1OnMouseClick ray s pui
      = ( p1FocusOnPlanet h.1 s
        , { infoPanelShown := true
          , infoPanelName := p1MeshName h.1
          , infoPanelRadius := p1MeshRadius h.1 } ) := by
  unfold p1OnMouseClick
  rw [hEq]

lemma p1TweenUpdate_params (s : P1State) : (p1TweenUpdate s).params = s.params := by
  unfold p1TweenUpdate
  split
  · split <;> rfl
  · rfl

lemma p1TweenUpdate_planets (s : P1State) : (p1TweenUpdate s).planets = s.planets := by
  unfold p1TweenUpdate
  split
  · split <;> rfl
  · rfl

lemma p1TweenUpdate_sunRotY (s : P1State) : (p1TweenUpdate s).sunRotY = s.sunRotY := by
  unfold p1TweenUpdate
  split
  · split <;> rfl
  · rfl

lemma p1HoverUpdate_planets (ray : List (Obj × ℚ)) (s : P1State) :
    (p1HoverUpdate ray s).planets = s.planets := by
  unfold p1HoverUpdate
  split
  · rfl
  · split <;> rfl

lemma p1HoverUpdate_sunRotY (ray : List (Obj × ℚ)) (s : P1State) :
    (p1HoverUpdate ray s).sunRotY = s.sunRotY := by
  unfold p1HoverUpdate
  split
  · rfl
  · split <;> rfl

/-- Models the `showOrbits` onChange handler of `src/unnamed/part_001`
(lines 104-108): the gui writes the new checkbox value into
`params.showOrbits` and the handler executes `planet.orbit.visible =
value` for each entry of the `planets` array — and for those only: the
sun record created by `createPlanet` at line 77 is not in `planets`, so
the sun's orbit line (added to the scene at line 63) is never
updated. -/
def p1ShowOrbitsOnChange (v : Bool) (s : P1State) : P1State :=
  { s with
      params := { s.params with showOrbits := v }
    , planets := s.planets.map (fun p => { p with orbitVisible := v }) }

/-- Overwrites the orbit-visibility flag of a part_001 planet record
with a fixed value, masking it out; two records agree on every other
field iff their masked forms are equal. -/
def p1MaskOrbitVisible (p : P1Planet) : P1Planet :=
  { p with orbitVisible := true }

/-- The events `src/unnamed/part_001` reacts to: an animation-frame tick
(with its wall-clock reading and pointer-ray oracle), a click, the
show-orbits checkbox, the pause checkbox, the global time-scale slider,
and the camera-reset button. -/
inductive P1Event where
  | tick (time : ℝ) (ray : List (Obj × ℚ))
  | click (ray : List (Obj × ℚ))
  | showOrbitsSet (v : Bool)
  | pauseSet (v : Bool)
  | timeScaleSet (v : ℚ)
  | resetClick

/-- One event-handler invocation of `src/unnamed/part_001` acting on the
simulation state: a tick runs `animate`; a click runs the state
component of `onMouseClick` (the info-panel component is its second
component and does not feed back into the state); the gui checkboxes
and slider write their `params` field, with the show-orbits onChange
also updating the planet orbit visuals; the reset button starts the
tween back to the initial camera position (`resetCamera`, lines
164-172). -/
noncomputable def p1Step : P1Event → P1State → P1State
  | P1Event.tick t ray, s => p1Animate t ray s
  | P1Event.click ray, s =>
      (p1OnMouseClick ray s
        { infoPanelShown := false, infoPanelName := "", infoPanelRadius := 0 }).1
  | P1Event.showOrbitsSet v, s => p1ShowOrbitsOnChange v s
  | P1Event.pauseSet v, s => { s with params := { s.params with pause := v } }
  | P1Event.timeScaleSet v, s => { s with params := { s.params with timeScale := v } }
  | P1Event.resetClick, s =>
      { s with tween := { active := true, remaining := 60, toX := 0, toY := 50, toZ := 150 } }

/-- Runs a sequence of part_001 events from a state, first event
first. -/
noncomputable def p1Run (evs : List P1Event) (s : P1State) : P1State :=
  evs.foldl (fun s e => p1Step e s) s

lemma setOrbitVisible_self {p : P1Planet} {b : Bool} (h : p.orbitVisible = b) :
    { p with orbitVisible := b } = p := by
  cases p
  subst h
  rfl

lemma setShowOrbits_self {q : P1Params} {b : Bool} (h : q.showOrbits = b) :
    { q with showOrbits := b } = q := by
  cases q
  subst h
  rfl

lemma map_setOrbitVisible_id {l : List P1Planet} {b : Bool}
    (h : ∀ p ∈ l, p.orbitVisible = b) :
    l.map (fun p => { p with orbitVisible := b }) = l := by
  induction l with
  | nil => rfl
  | cons p l ih =>
      rw [List.map_cons, setOrbitVisible_self (h p (List.mem_cons_self p l)),
        ih (fun q hq => h q (List.mem_cons_of_mem p hq))]

lemma p1TweenUpdate_sunOrbitVisible (s : P1State) :
    (p1TweenUpdate s).sunOrbitVisible = s.sunOrbitVisible := by
  unfold p1TweenUpdate
  split
  · split <;> rfl
  · rfl

lemma p1HoverUpdate_sunOrbitVisible (ray : List (Obj × ℚ)) (s : P1State) :
    (p1HoverUpdate ray s).sunOrbitVisible = s.sunOrbitVisible := by
  unfold p1HoverUpdate
  split
  · rfl
  · split <;> rfl

lemma p1FocusOnPlanet_planets (o : Obj) (s : P1State) :
    (p1FocusOnPlanet o s).planets = s.planets := by
  unfold p1FocusOnPlanet
  split <;> rfl

lemma p1FocusOnPlanet_sunOrbitVisible (o : Obj) (s : P1State) :
    (p1FocusOnPlanet o s).sunOrbitVisible = s.sunOrbitVisible := by
  unfold p1FocusOnPlanet
  split <;> rfl

lemma p1OnMouseClick_fst_planets (ray : List (Obj × ℚ)) (s : P1State) (ui : P1UI) :
    (p1OnMouseClick ray s ui).1.planets = s.planets := by
  unfold p1OnMouseClick
  split
  · rfl
  · exact p1FocusOnPlanet_planets _ _

lemma p1OnMouseClick_fst_sunOrbitVisible (ray : List (Obj × ℚ)) (s : P1State)
    (ui : P1UI) :
    (p1OnMouseClick ray s ui).1.sunOrbitVisible = s.sunOrbitVisible := by
  unfold p1OnMouseClick
  split
  · rfl
  · exact p1FocusOnPlanet_sunOrbitVisible _ _

lemma p1Animate_planets (t : ℝ) (ray : List (Obj × ℚ)) (s : P1State) :
    (p1Animate t ray s).planets
      = if s.params.pause then s.planets
        else s.planets.map (p1UpdatePlanet t s.params.timeScale) := by
  simp only [p1Animate]
  split
  case isTrue hc =>
      have hc' : s.params.pause = true := by
        rw [← p1TweenUpdate_params s]
        exact hc
      rw [if_pos hc']
      show (p1HoverUpdate ray (p1TweenUpdate s)).planets = s.planets
      rw [p1HoverUpdate_planets, p1TweenUpdate_planets]
  case isFalse hc =>
      have hc' : ¬ s.params.pause = true := by
        rw [← p1TweenUpdate_params s]
        exact hc
      rw [if_neg hc']
      show (p1HoverUpdate ray
          { p1TweenUpdate s with
              planets := (p1TweenUpdate s).planets.map
                (p1UpdatePlanet t (p1TweenUpdate s).params.timeScale)
            , sunRotY := (p1TweenUpdate s).sunRotY + p1SunRotationSpeed }).planets
        = s.planets.map (p1UpdatePlanet t s.params.timeScale)
      rw [p1HoverUpdate_planets]
      show (p1TweenUpdate s).planets.map
          (p1UpdatePlanet t (p1TweenUpdate s).params.timeScale)
        = s.planets.map (p1UpdatePlanet t s.params.timeScale)
      rw [p1TweenUpdate_planets, p1TweenUpdate_params]

lemma p1Animate_sunOrbitVisible (t : ℝ) (ray : List (Obj × ℚ)) (s : P1State) :
    (p1Animate t ray s).sunOrbitVisible = s.sunOrbitVisible := by
  simp only [p1Animate]
  split
  case isTrue hc =>
      show (p1HoverUpdate ray (p1TweenUpdate s)).sunOrbitVisible = s.sunOrbitVisible
      rw [p1HoverUpdate_sunOrbitVisible, p1TweenUpdate_sunOrbitVisible]
  case isFalse hc =>
      show (p1HoverUpdate ray
          { p1TweenUpdate s with
              planets := (p1TweenUpdate s).planets.map
                (p1UpdatePlanet t (p1TweenUpdate s).params.timeScale)
            , sunRotY := (p1TweenUpdate s).sunRotY + p1SunRotationSpeed }).sunOrbitVisible
        = s.sunOrbitVisible
      rw [p1HoverUpdate_sunOrbitVisible]
      show (p1TweenUpdate s).sunOrbitVisible = s.sunOrbitVisible
      rw [p1TweenUpdate_sunOrbitVisible]

lemma p1Step_sunOrbitVisible (e : P1Event) (s : P1State) :
    (p1Step e s).sunOrbitVisible = s.sunOrbitVisible := by
  cases e with
  | tick t ray => exact p1Animate_sunOrbitVisible t ray s
  | click ray => exact p1OnMouseClick_fst_sunOrbitVisible ray s _
  | showOrbitsSet v => rfl
  | pauseSet v => rfl
  | timeScaleSet v => rfl
  | resetClick => rfl

lemma p1Run_sunOrbitVisible (evs : List P1Event) (s : P1State) :
    (p1Run evs s).sunOrbitVisible = s.sunOrbitVisible := by
  induction evs generalizing s with
  | nil => rfl
  | cons e evs ih =>
      show (p1Run evs (p1Step e s)).sunOrbitVisible = s.sunOrbitVisible
      rw [ih (p1Step e s), p1Step_sunOrbitVisible]

lemma p1Step_orbit_uniform (e : P1Event) (s : P1State) (b : Bool)
    (hb : ∀ p ∈ s.planets, p.orbitVisible = b) :
    ∃ b', ∀ p ∈ (p1Step e s).planets, p.orbitVisible = b' := by
  cases e with
  | tick t ray =>
      refine ⟨b, ?_⟩
      intro p hp
      simp only [p1Step] at hp
      rw [p1Animate_planets] at hp
      split at hp
      · exact hb p hp
      · rw [List.mem_map] at hp
        obtain ⟨q, hq, rfl⟩ := hp
        show q.orbitVisible = b
        exact hb q hq
  | click ray =>
      refine ⟨b, ?_⟩
      intro p hp
      simp only [p1Step] at hp
      rw [p1OnMouseClick_fst_planets] at hp
      exact hb p hp
  | showOrbitsSet v =>
      refine ⟨v, ?_⟩
      intro p hp
      have hp' : p ∈ s.planets.map (fun q => { q with orbitVisible := v }) := hp
      rw [List.mem_map] at hp'
      obtain ⟨q, hq, rfl⟩ := hp'
      rfl
  | pauseSet v => exact ⟨b, fun p hp => hb p hp⟩
  | timeScaleSet v => exact ⟨b, fun p hp => hb p hp⟩
  | resetClick => exact ⟨b, fun p hp => hb p hp⟩

lemma p1Run_orbit_uniform (evs : List P1Event) (s : P1State) (b : Bool)
    (hb : ∀ p ∈ s.planets, p.orbitVisible = b) :
    ∃ b', ∀ p ∈ (p1Run evs s).planets, p.orbitVisible = b' := by
  induction evs generalizing s b with
  | nil => exact ⟨b, hb⟩
  | cons e evs ih =>
      obtain ⟨b', hb'⟩ := p1Step_orbit_uniform e s b hb
      exact ih (p1Step e s) b' hb'

/-- C1: the claim asserts the stored angle after N ticks equals
`(initial_angle + N * orbitSpeed) mod 2π`, i.e. that the stored angle is
wrapped into `[0, 2π)` after every tick.  Taking the Mercury row
(`distance = 10`, so `orbitSpeed 10 = 1/200`), initial angle `0`, speed
slider `1`, and `N = 2000` ticks, the stored angle is `10`, whereas the
claimed wrapped value lies in `[0, 2π) ⊆ [0, 8)`: the code never reduces
the accumulated angle modulo 2π, so the claim is false at this input. -/
theorem C1_counterexample :
    ((scriptAngleAfter 0 10 1 2000 : ℚ) : ℝ) = 10 ∧
    toIcoMod Real.two_pi_pos 0
      ((0 : ℝ) + 2000 * ((orbitSpeed 10 : ℚ) : ℝ) * 1) < 8 ∧
    (8 : ℝ) < 10 := by
  refine ⟨?_, ?_, by norm_num⟩
  · rw [scriptAngleAfter_eq]
    norm_num [orbitSpeed]
  · have hmem := toIcoMod_mem_Ico Real.two_pi_pos 0
      ((0 : ℝ) + 2000 * ((orbitSpeed 10 : ℚ) : ℝ) * 1)
    have hlt := hmem.2
    have hpi := Real.pi_lt_four
    linarith

/-- C1 (amended): after `n` ticks of `src/script.js` with the speed slider
at `s`, the stored orbital angle equals `initial_angle + n * (orbitSpeed *
s)` exactly — each per-tick increment is the configured angular speed
`orbitSpeed d` times the speed factor, but the stored angle is never
wrapped modulo 2π: it accumulates without bound (only `Math.cos` /
`Math.sin` of it are taken, so the rendered positions are unaffected). -/
theorem C1_amended_thm (a0 d s : ℚ) (n : ℕ) :
    scriptAngleAfter a0 d s n = a0 + n * (orbitSpeed d * s) ∧
    scriptAngleAfter a0 d s (n + 1) = scriptAngleAfter a0 d s n + orbitSpeed d * s := by
  refine ⟨scriptAngleAfter_eq a0 d s n, ?_⟩
  rw [scriptAngleAfter, orbitSpeed]

lemma cos_mul_sq_add_sin_mul_sq (a d : ℝ) :
    (Real.cos a * d) ^ 2 + (Real.sin a * d) ^ 2 = d ^ 2 := by
  rw [mul_pow, mul_pow, ← add_mul, Real.cos_sq_add_sin_sq, one_mul]

/-- C2: after every tick, a body's planar position satisfies
`posX² + posZ² = orbitDistance²`.  The `src/script.js` tick places every
planet at `(cos angle · d, ·, sin angle · d)` for its configured distance
`d`, whatever the speed factor and stored angle; the `src/unnamed/part_001`
unpaused tick does the same for its `orbitRadius`, whatever the wall-clock
time and global time scale; and the `part_001` planets are created on the
circle at `(distance, 0, 0)`, so a tick executed while paused (which
leaves positions untouched) also leaves the invariant intact. -/
theorem C2_thm :
    (∀ (speed : ℝ) (p : SPlanet),
        (animatePlanetS speed p).posX ^ 2 + (animatePlanetS speed p).posZ ^ 2
          = ((p.config.distance : ℚ) : ℝ) ^ 2) ∧
    (∀ (time : ℝ) (gs : ℚ) (p : P1Planet),
        (p1UpdatePlanet time gs p).posX ^ 2 + (p1UpdatePlanet time gs p).posZ ^ 2
          = ((p.orbitRadius : ℚ) : ℝ) ^ 2) ∧
    (∀ i : Fin 8,
        (p1InitPlanet i).posX ^ 2 + (p1InitPlanet i).posZ ^ 2
          = (((p1InitPlanet i).orbitRadius : ℚ) : ℝ) ^ 2) := by
  refine ⟨?_, ?_, ?_⟩
  · intro speed p
    exact cos_mul_sq_add_sin_mul_sq _ _
  · intro time gs p
    exact cos_mul_sq_add_sin_mul_sq _ _
  · intro i
    show ((p1ConfigAt i).distance : ℝ) ^ 2 + (0 : ℝ) ^ 2
        = ((p1ConfigAt i).distance : ℝ) ^ 2
    norm_num

lemma handleClick_hit (angles : Fin 8 → ℝ) (ray : List (Obj × ℚ)) (ui : UIState)
    {h : Obj × ℚ} {t : List (Obj × ℚ)} (i : Fin 8)
    (hEq : intersectObjects ((buildPlanets angles).map (fun p => p.mesh)) ray = h :: t)
    (hi : h.1 = Obj.planetMesh i) :
    handlePlanetClickS (buildPlanets angles) ray ui
      = showPlanetInfoS (mkPlanet i (angles i)) ui := by
  simp only [handlePlanetClickS, hEq]
  rw [hi, find_buildPlanets]

/-- C3: the claim asserts that a click on empty space clears the selection
and hides the info panel.  In `src/script.js` (`handlePlanetClick`, lines
199-217) there is no else branch: with the panel currently shown and a
click whose pick ray intersects nothing, the handler leaves the panel
exactly as it was — still active — instead of hiding it. -/
theorem C3_counterexample :
    intersectObjects ((buildPlanets (fun _ => 0)).map (fun p => p.mesh)) [] = [] ∧
    (handlePlanetClickS (buildPlanets (fun _ => 0)) [] uiShown).panelActive = true := by
  exact ⟨rfl, rfl⟩

/-- C3 (amended): on a click whose pick ray intersects at least one body
visual, both variants select the body with the nearest intersection
distance and show its info; on a click that intersects no body visual,
`src/unnamed/part_001` hides the info panel and leaves the rest of the
state alone, while `src/script.js` leaves the panel and selection
entirely unchanged (it does not hide the panel). -/
theorem C3_amended_thm (angles : Fin 8 → ℝ) (ray : List (Obj × ℚ)) (ui : UIState) :
    (∀ h t,
        intersectObjects ((buildPlanets angles).map (fun p => p.mesh)) ray = h :: t →
        h ∈ ray ∧
        (∀ x ∈ ray, x.1 ∈ (buildPlanets angles).map (fun p => p.mesh) → h.2 ≤ x.2) ∧
        ∃ i : Fin 8, h.1 = Obj.planetMesh i ∧
          handlePlanetClickS (buildPlanets angles) ray ui
            = showPlanetInfoS (mkPlanet i (angles i)) ui ∧
          (handlePlanetClickS (buildPlanets angles) ray ui).panelActive = true ∧
          (handlePlanetClickS (buildPlanets angles) ray ui).panelName
            = (configAt i).name) ∧
    (intersectObjects ((buildPlanets angles).map (fun p => p.mesh)) ray = [] →
        handlePlanetClickS (buildPlanets angles) ray ui = ui) ∧
    (∀ (s : P1State) (pui : P1UI),
        intersectObjects (s.planets.map (fun p => p.mesh)) ray = [] →
        (p1OnMouseClick ray s pui).2.infoPanelShown = false ∧
        (p1OnMouseClick ray s pui).1 = s) ∧
    (∀ (s : P1State) (pui : P1UI) (h : Obj × ℚ) (t : List (Obj × ℚ)),
        intersectObjects (s.planets.map (fun p => p.mesh)) ray = h :: t →
        (p1OnMouseClick ray s pui).2.infoPanelShown = true ∧
        (p1OnMouseClick ray s pui).2.infoPanelName = p1MeshName h.1) := by
  refine ⟨?_, ?_, ?_, ?_⟩
  · intro h t hEq
    have hmem : h ∈ intersectObjects ((buildPlanets angles).map (fun p => p.mesh)) ray := by
      rw [hEq]
      exact List.mem_cons_self _ _
    obtain ⟨hray, htgt⟩ := mem_intersectObjects hmem
    have hex : ∃ i : Fin 8, h.1 = Obj.planetMesh i := by
      have hms : (buildPlanets angles).map (fun p => p.mesh)
          = [ Obj.planetMesh 0, Obj.planetMesh 1, Obj.planetMesh 2, Obj.planetMesh 3
            , Obj.planetMesh 4, Obj.planetMesh 5, Obj.planetMesh 6, Obj.planetMesh 7 ] := rfl
      rw [hms] at htgt
      simp only [List.mem_cons, List.not_mem_nil, or_false] at htgt
      rcases htgt with h' | h' | h' | h' | h' | h' | h' | h'
      exacts [⟨0, h'⟩, ⟨1, h'⟩, ⟨2, h'⟩, ⟨3, h'⟩, ⟨4, h'⟩, ⟨5, h'⟩, ⟨6, h'⟩, ⟨7, h'⟩]
    obtain ⟨i, hi⟩ := hex
    have heval := handleClick_hit angles ray ui i hEq hi
    refine ⟨hray, intersectObjects_head_min hEq, i, hi, heval, ?_, ?_⟩
    · rw [heval]
      rfl
    · rw [heval]
      rfl
  · intro hEq
    simp only [handlePlanetClickS, hEq]
  · intro s pui hEq
    rw [p1OnMouseClick_of_miss hEq]
    exact ⟨rfl, rfl⟩
  · intro s pui h t hEq
    rw [p1OnMouseClick_of_hit hEq]
    exact ⟨rfl, rfl⟩

/-- C3 (witness): a concrete click whose ray hits the Earth mesh at
distance 5 activates the info panel. -/
theorem C3_witness :
    intersectObjects ((buildPlanets (fun _ => 0)).map (fun p => p.mesh))
        [(Obj.planetMesh 2, 5)] = [(Obj.planetMesh 2, 5)] ∧
    (handlePlanetClickS (buildPlanets (fun _ => 0))
        [(Obj.planetMesh 2, 5)] uiShown).panelActive = true := by
  refine ⟨rfl, ?_⟩
  obtain ⟨-, -, i, -, -, hact, -⟩ :=
    (C3_amended_thm (fun _ => 0) [(Obj.planetMesh 2, 5)] uiShown).1 _ _ rfl
  exact hact

/-- C4: the claim asserts that when a required UI anchor element is
missing at startup, initialization aborts entirely and the render loop is
not started.  With `#infoPanel` missing, `setupUI` does report the error
and wires no listeners, but its early `return` only leaves `setupUI`: the
constructor has already built the scene and still calls `this.animate()`,
so the render loop starts and the partially-wired page is shown. -/
theorem C4_counterexample :
    (solarSystemConstructor missingDom).errorReported = true ∧
    (solarSystemConstructor missingDom).animateStarted = true ∧
    (solarSystemConstructor missingDom).sceneBuilt = true ∧
    (solarSystemConstructor missingDom).uiListenersWired = false := by
  exact ⟨rfl, rfl, rfl, rfl⟩

/-- C4 (amended): a missing `#infoPanel` or `#closeInfoPanel` element is
the only condition under which startup reports an error, and when it
holds the remaining UI wiring (buttons, slider, click picking, close
button) is skipped — but the scene has already been built and the render
loop is still started, so a partial UI is shown rather than a full
abort. -/
theorem C4_amended_thm (dom : DOMDoc) :
    ((solarSystemConstructor dom).errorReported = true ↔
      (dom.infoPanel = false ∨ dom.closeInfoPanel = false)) ∧
    ((dom.infoPanel = false ∨ dom.closeInfoPanel = false) →
      (solarSystemConstructor dom).uiListenersWired = false ∧
      (solarSystemConstructor dom).clickListenerWired = false ∧
      (solarSystemConstructor dom).animateStarted = true ∧
      (solarSystemConstructor dom).sceneBuilt = true) := by
  obtain ⟨a, b⟩ := dom
  cases a <;> cases b <;> decide

/-- C4 (witness): the amended statement evaluated at a document whose
`#infoPanel` element is missing. -/
theorem C4_witness :
    (missingDom.infoPanel = false ∨ missingDom.closeInfoPanel = false) ∧
    (solarSystemConstructor missingDom).uiListenersWired = false ∧
    (solarSystemConstructor missingDom).animateStarted = true := by
  refine ⟨Or.inl rfl, ?_, ?_⟩
  · exact ((C4_amended_thm missingDom).2 (Or.inl rfl)).1
  · exact ((C4_amended_thm missingDom).2 (Or.inl rfl)).2.2.1

/-- C5: while `src/unnamed/part_001` is paused, a tick leaves every
planet record (position, rotation, and all other stored body state) and
the sun's rotation unchanged, yet the tick still consists of exactly the
tween step, the hover picking check, the controls damping, and the two
redraws — the paused tick coincides with that composition. -/
theorem C5_thm (time : ℝ) (ray : List (Obj × ℚ)) (s : P1State)
    (h : s.params.pause = true) :
    (p1Animate time ray s).planets = s.planets ∧
    (p1Animate time ray s).sunRotY = s.sunRotY ∧
    p1Animate time ray s = p1AnimatePausedPath ray s := by
  have hc : (p1TweenUpdate s).params.pause = true := by
    rw [p1TweenUpdate_params]
    exact h
  have hmain : p1Animate time ray s = p1AnimatePausedPath ray s := by
    simp only [p1Animate, p1AnimatePausedPath, hc, if_true]
  refine ⟨?_, ?_, hmain⟩
  · rw [hmain]
    show (p1HoverUpdate ray (p1TweenUpdate s)).planets = s.planets
    rw [p1HoverUpdate_planets, p1TweenUpdate_planets]
  · rw [hmain]
    show (p1HoverUpdate ray (p1TweenUpdate s)).sunRotY = s.sunRotY
    rw [p1HoverUpdate_sunRotY, p1TweenUpdate_sunRotY]

/-- C5 (witness): a concrete paused tick of the initial state leaves the
planet records unchanged. -/
theorem C5_witness :
    p1PausedState.params.pause = true ∧
    (p1Animate 0 [] p1PausedState).planets = p1PausedState.planets :=
  ⟨rfl, (C5_thm 0 [] p1PausedState rfl).1⟩

/-- C6: the claim asserts one activation of the show-orbits toggle
changes the visibility flag of every orbit-path visual.  In
`src/unnamed/part_001` (the cited `showOrbits` onChange, lines 104-108)
this is false: unchecking the box from the initial state hides the eight
planet orbit paths but leaves the sun's orbit line — an orbit-path
visual created by `createPlanet` at line 77 and added to the scene at
line 63 — unchanged and still visible, because the handler iterates
only the `planets` array. -/
theorem C6_counterexample :
    p1InitState.sunOrbitVisible = true ∧
    (p1ShowOrbitsOnChange false p1InitState).sunOrbitVisible
      = p1InitState.sunOrbitVisible ∧
    (p1ShowOrbitsOnChange false p1InitState).planets.map (fun p => p.orbitVisible)
      = [false, false, false, false, false, false, false, false] ∧
    p1InitState.planets.map (fun p => p.orbitVisible)
      = [true, true, true, true, true, true, true, true] :=
  ⟨rfl, rfl, rfl, rfl⟩

/-- C6 (amended): in `src/script.js` one activation of the show-orbits
toggle negates the visibility flag of every orbit-path visual (the
eight planet orbit paths are the only ones in that variant), changes no
body visual's visibility and nothing else in the state, and two
successive activations restore the state that held before the first.
In `src/unnamed/part_001` one activation writes the checkbox value into
`params.showOrbits` and sets the visibility of exactly the eight planet
orbit paths to that value — never any body visual's visibility, and
never the sun's orbit line, which keeps its previous visibility — and
two successive activations restore the state that held before the
first, provided the planet orbit flags agreed with the checkbox (as
they do in every reachable state). -/
theorem C6_amended_thm (s : ScriptState) (v : Bool) (t : P1State) :
    (stepS SEvent.toggleOrbitsClick s).planets = s.planets.map flipOrbit ∧
    (stepS SEvent.toggleOrbitsClick s).planets.map (fun p => p.orbitVisible)
      = s.planets.map (fun p => !p.orbitVisible) ∧
    (stepS SEvent.toggleOrbitsClick s).planets.map (fun p => p.meshVisible)
      = s.planets.map (fun p => p.meshVisible) ∧
    (stepS SEvent.toggleOrbitsClick s).planets.map maskOrbitVisible
      = s.planets.map maskOrbitVisible ∧
    { stepS SEvent.toggleOrbitsClick s with planets := s.planets } = s ∧
    stepS SEvent.toggleOrbitsClick (stepS SEvent.toggleOrbitsClick s) = s ∧
    (p1ShowOrbitsOnChange v t).planets.map (fun p => p.orbitVisible)
      = t.planets.map (fun _ => v) ∧
    (p1ShowOrbitsOnChange v t).planets.map (fun p => p.meshVisible)
      = t.planets.map (fun p => p.meshVisible) ∧
    (p1ShowOrbitsOnChange v t).planets.map p1MaskOrbitVisible
      = t.planets.map p1MaskOrbitVisible ∧
    (p1ShowOrbitsOnChange v t).sunOrbitVisible = t.sunOrbitVisible ∧
    { p1ShowOrbitsOnChange v t with planets := t.planets, params := t.params } = t ∧
    (∀ b : Bool, t.params.showOrbits = b → (∀ p ∈ t.planets, p.orbitVisible = b) →
        p1ShowOrbitsOnChange b (p1ShowOrbitsOnChange (!b) t) = t) := by
  have hff : flipOrbit ∘ flipOrbit = id := by
    funext p
    cases p
    simp [flipOrbit, Function.comp]
  refine ⟨rfl, ?_, ?_, ?_, rfl, ?_, ?_, ?_, ?_, rfl, rfl, ?_⟩
  · show (s.planets.map flipOrbit).map (fun p => p.orbitVisible)
        = s.planets.map (fun p => !p.orbitVisible)
    rw [List.map_map]
    rfl
  · show (s.planets.map flipOrbit).map (fun p => p.meshVisible)
        = s.planets.map (fun p => p.meshVisible)
    rw [List.map_map]
    rfl
  · show (s.planets.map flipOrbit).map maskOrbitVisible
        = s.planets.map maskOrbitVisible
    rw [List.map_map]
    rfl
  · have h2 : (s.planets.map flipOrbit).map flipOrbit = s.planets := by
      rw [List.map_map, hff, List.map_id]
    calc stepS SEvent.toggleOrbitsClick (stepS SEvent.toggleOrbitsClick s)
        = { s with planets := (s.planets.map flipOrbit).map flipOrbit } := rfl
      _ = { s with planets := s.planets } := by rw [h2]
      _ = s := rfl
  · show (t.planets.map (fun p => { p with orbitVisible := v })).map
        (fun p => p.orbitVisible) = t.planets.map (fun _ => v)
    rw [List.map_map]
    rfl
  · show (t.planets.map (fun p => { p with orbitVisible := v })).map
        (fun p => p.meshVisible) = t.planets.map (fun p => p.meshVisible)
    rw [List.map_map]
    rfl
  · show (t.planets.map (fun p => { p with orbitVisible := v })).map
        p1MaskOrbitVisible = t.planets.map p1MaskOrbitVisible
    rw [List.map_map]
    rfl
  · intro b hsb hb
    have hpl : (t.planets.map (fun p => { p with orbitVisible := (!b) })).map
        (fun p => { p with orbitVisible := b }) = t.planets := by
      rw [List.map_map]
      show t.planets.map (fun p => { p with orbitVisible := b }) = t.planets
      exact map_setOrbitVisible_id hb
    calc p1ShowOrbitsOnChange b (p1ShowOrbitsOnChange (!b) t)
        = { t with
              params := { t.params with showOrbits := b }
            , planets := (t.planets.map
                  (fun p : P1Planet => { p with orbitVisible := (!b) })).map
                (fun p : P1Planet => { p with orbitVisible := b }) } := rfl
      _ = t := by rw [hpl, setShowOrbits_self hsb]

/-- C6 (witness): in the part_001 initial state the checkbox is on and
every planet orbit flag is on, and unchecking then rechecking the box
restores that state exactly. -/
theorem C6_witness :
    p1InitState.params.showOrbits = true ∧
    (∀ p ∈ p1InitState.planets, p.orbitVisible = true) ∧
    p1ShowOrbitsOnChange true (p1ShowOrbitsOnChange (!true) p1InitState)
      = p1InitState := by
  have hb : ∀ p ∈ p1InitState.planets, p.orbitVisible = true := by
    intro p hp
    simp only [p1InitState, p1InitPlanets, List.mem_cons, List.not_mem_nil
      , or_false] at hp
    rcases hp with rfl | rfl | rfl | rfl | rfl | rfl | rfl | rfl <;> rfl
  refine ⟨rfl, hb, ?_⟩
  obtain ⟨-, -, -, -, -, -, -, -, -, -, -, hdt⟩ :=
    C6_amended_thm (initScriptState (fun _ => 0) 16 9) false p1InitState
  exact hdt true rfl hb

/-- C7: with the registry of 8 bodies at distances
[10, 15, 20, 25, 35, 45, 55, 65], the scene built by `src/script.js`
contains exactly 8 body visuals, exactly 8 orbit-path visuals, and
exactly 1 sun visual, and every planet's orbit ring has outer radius
equal to its configured distance. -/
theorem C7_thm (angles : Fin 8 → ℝ) :
    planetConfigs.map (fun c => c.distance) = [10, 15, 20, 25, 35, 45, 55, 65] ∧
    (sceneObjects.filter isBodyVisual).length = 8 ∧
    (sceneObjects.filter isOrbitVisual).length = 8 ∧
    (sceneObjects.filter isSunVisual).length = 1 ∧
    (buildPlanets angles).map (fun p => p.orbitOuter)
      = planetConfigs.map (fun c => c.distance) := by
  exact ⟨by decide, by decide, by decide, by decide, rfl⟩

/-- C8: the `handleResize` handler of `src/script.js` sets the camera
aspect to `w / h` and the renderer buffer to `(w, h)` synchronously
within the handler, and a subsequent tick renders with that aspect
unchanged; but the claim fails on the `src/unnamed/part_000` variant,
whose top-level resize listener reads the global names `camera` and
`renderer` — unbound in that script, where both exist only as instance
properties of the `SolarSystem` object — so there the handler throws a
`ReferenceError` and updates nothing. -/
theorem C8_thm (w h : ℚ) (s : ScriptState) :
    (stepS (SEvent.resize w h) s).aspect = w / h ∧
    (stepS (SEvent.resize w h) s).rendererW = w ∧
    (stepS (SEvent.resize w h) s).rendererH = h ∧
    (stepS SEvent.tick (stepS (SEvent.resize w h) s)).aspect = w / h ∧
    part000ResizeListener part000GlobalBindings w h = none := by
  exact ⟨rfl, rfl, rfl, rfl, rfl⟩

/-- C9: the pickable set handed to the ray intersection consists of the
planet meshes only — the sun mesh is not among them — so a click whose
ray hits only the sun produces no intersections and behaves exactly like
a click on empty space, in both variants; the selected body is therefore
never the sun. -/
theorem C9_thm (angles : Fin 8 → ℝ) (ray : List (Obj × ℚ)) (ui : UIState) :
    Obj.sun ∉ (buildPlanets angles).map (fun p => p.mesh) ∧
    ((∀ h ∈ ray, h.1 = Obj.sun) →
        handlePlanetClickS (buildPlanets angles) ray ui = ui ∧
        handlePlanetClickS (buildPlanets angles) ray ui
          = handlePlanetClickS (buildPlanets angles) [] ui) ∧
    (∀ (s : P1State) (pui : P1UI),
        Obj.sun ∉ s.planets.map (fun p => p.mesh) →
        (∀ h ∈ ray, h.1 = Obj.sun) →
        p1OnMouseClick ray s pui = p1OnMouseClick [] s pui) := by
  have hsun : Obj.sun ∉ (buildPlanets angles).map (fun p => p.mesh) := by
    show Obj.sun ∉
      [ Obj.planetMesh 0, Obj.planetMesh 1, Obj.planetMesh 2, Obj.planetMesh 3
      , Obj.planetMesh 4, Obj.planetMesh 5, Obj.planetMesh 6, Obj.planetMesh 7 ]
    decide
  refine ⟨hsun, ?_, ?_⟩
  · intro hray
    have hEq := intersectObjects_sunOnly hsun hray
    have h1 : handlePlanetClickS (buildPlanets angles) ray ui = ui := by
      simp only [handlePlanetClickS, hEq]
    exact ⟨h1, h1⟩
  · intro s pui hsun' hray
    have hEq := intersectObjects_sunOnly hsun' hray
    have hEq2 : intersectObjects (s.planets.map (fun p => p.mesh)) [] = [] := rfl
    simp only [p1OnMouseClick, hEq, hEq2]

/-- C9 (witness): a concrete click whose ray hits only the sun leaves the
shown panel exactly as a click on empty space does. -/
theorem C9_witness :
    (∀ h ∈ [(Obj.sun, (5 : ℚ))], h.1 = Obj.sun) ∧
    handlePlanetClickS (buildPlanets (fun _ => 0)) [(Obj.sun, 5)] uiShown = uiShown := by
  have hray : ∀ h ∈ [(Obj.sun, (5 : ℚ))], h.1 = Obj.sun := by
    intro h hm
    rw [List.mem_singleton] at hm
    rw [hm]
  exact ⟨hray, ((C9_thm (fun _ => 0) [(Obj.sun, 5)] uiShown).2.1 hray).1⟩

lemma stepS_orbitVisible_pres (e : SEvent) (s : ScriptState) (b : Bool)
    (hb : ∀ p ∈ s.planets, p.orbitVisible = b) :
    ∃ b', ∀ p ∈ (stepS e s).planets, p.orbitVisible = b' := by
  cases e with
  | tick =>
      refine ⟨b, ?_⟩
      intro p hp
      simp only [stepS] at hp
      rw [List.mem_map] at hp
      obtain ⟨q, hq, rfl⟩ := hp
      show q.orbitVisible = b
      exact hb q hq
  | clickRay ray => exact ⟨b, fun p hp => hb p hp⟩
  | toggleOrbitsClick =>
      refine ⟨!b, ?_⟩
      intro p hp
      simp only [stepS] at hp
      rw [List.mem_map] at hp
      obtain ⟨q, hq, rfl⟩ := hp
      show (!q.orbitVisible) = (!b)
      rw [hb q hq]
  | autoRotateClick => exact ⟨b, fun p hp => hb p hp⟩
  | speedInput v => exact ⟨b, fun p hp => hb p hp⟩
  | closePanelClick => exact ⟨b, fun p hp => hb p hp⟩
  | resize w h => exact ⟨b, fun p hp => hb p hp⟩

lemma runS_orbitVisible_uniform (evs : List SEvent) (s : ScriptState) (b : Bool)
    (hb : ∀ p ∈ s.planets, p.orbitVisible = b) :
    ∃ b', ∀ p ∈ (runS evs s).planets, p.orbitVisible = b' := by
  induction evs generalizing s b with
  | nil => exact ⟨b, hb⟩
  | cons e evs ih =>
      obtain ⟨b', hb'⟩ := stepS_orbitVisible_pres e s b hb
      exact ih (stepS e s) b' hb'

/-- C10: the claim asserts that no state is reachable in which two
orbit paths differ in visibility.  In `src/unnamed/part_001` the state
reached from startup by a single activation of the show-orbits checkbox
(unchecking it) has the sun's orbit line still visible while all eight
planet orbit paths are hidden: the cited onChange handler (lines
104-108) iterates only the `planets` array and never touches the sun's
orbit line created by `createPlanet` at line 77 and scene-added at line
63. -/
theorem C10_counterexample :
    (p1Run [P1Event.showOrbitsSet false] p1InitState).sunOrbitVisible = true ∧
    (p1Run [P1Event.showOrbitsSet false] p1InitState).planets.map
        (fun p => p.orbitVisible)
      = [false, false, false, false, false, false, false, false] :=
  ⟨rfl, rfl⟩

/-- C10 (amended): every orbit path is created visible.  In
`src/script.js`, all orbit-path visuals share the same visibility value
in every state reachable from startup by any event sequence, since the
only operation that touches orbit visibility flips all of them in one
invocation.  In `src/unnamed/part_001`, the eight planet orbit paths
share the same visibility value in every reachable state, but the
show-orbits handler never updates the sun's orbit line, which keeps its
creation-time visibility (visible) over every event sequence — so
states in which two orbit paths differ in visibility are reachable. -/
theorem C10_amended_thm (angles : Fin 8 → ℝ) (w h : ℚ) (evs : List SEvent)
    (p1evs : List P1Event) :
    (∀ p ∈ (initScriptState angles w h).planets, p.orbitVisible = true) ∧
    (∃ b, ∀ p ∈ (runS evs (initScriptState angles w h)).planets, p.orbitVisible = b) ∧
    p1InitState.sunOrbitVisible = true ∧
    (∀ p ∈ p1InitState.planets, p.orbitVisible = true) ∧
    (p1Run p1evs p1InitState).sunOrbitVisible = true ∧
    (∃ b, ∀ p ∈ (p1Run p1evs p1InitState).planets, p.orbitVisible = b) := by
  have hinit : ∀ p ∈ (initScriptState angles w h).planets, p.orbitVisible = true := by
    intro p hp
    simp only [initScriptState, buildPlanets, List.mem_cons, List.not_mem_nil
      , or_false] at hp
    rcases hp with rfl | rfl | rfl | rfl | rfl | rfl | rfl | rfl <;> rfl
  have hp1init : ∀ p ∈ p1InitState.planets, p.orbitVisible = true := by
    intro p hp
    simp only [p1InitState, p1InitPlanets, List.mem_cons, List.not_mem_nil
      , or_false] at hp
    rcases hp with rfl | rfl | rfl | rfl | rfl | rfl | rfl | rfl <;> rfl
  refine ⟨hinit, runS_orbitVisible_uniform evs _ true hinit, rfl, hp1init, ?_,
    p1Run_orbit_uniform p1evs _ true hp1init⟩
  rw [p1Run_sunOrbitVisible]
  rfl

/-- C10 (witness): the Mercury records of both variants are in the
respective initial states' planet lists and their orbit paths are
created visible. -/
theorem C10_witness :
    mkPlanet 0 ((fun _ => (0 : ℝ)) 0) ∈ (initScriptState (fun _ => 0) 16 9).planets ∧
    (mkPlanet 0 ((fun _ => (0 : ℝ)) 0)).orbitVisible = true ∧
    p1InitPlanet 0 ∈ p1InitState.planets ∧
    (p1InitPlanet 0).orbitVisible = true := by
  have hmem : mkPlanet 0 ((fun _ => (0 : ℝ)) 0)
      ∈ (initScriptState (fun _ => 0) 16 9).planets := by
    show mkPlanet 0 ((fun _ => (0 : ℝ)) 0) ∈ buildPlanets (fun _ => 0)
    exact mkPlanet_mem_buildPlanets (fun _ => 0) 0
  have hmem1 : p1InitPlanet 0 ∈ p1InitState.planets := by
    show p1InitPlanet 0 ∈ p1InitPlanets
    simp [p1InitPlanets]
  have hthm := C10_amended_thm (fun _ => 0) 16 9 [] []
  exact ⟨hmem, hthm.1 _ hmem, hmem1, hthm.2.2.2.1 _ hmem1⟩
